import Mathlib

/-!
Shallow embedding of the faculty-feedback Flask backend (`src/app.py`).

Each HTTP handler is modelled as a pure function from an environment
(the werkzeug password primitives), the current session, the parsed
request, and a database model to a result consisting of:
  * the outcome (a JSON response with an HTTP status, or an uncaught
    Python exception),
  * the session state after the request,
  * the list of data-access calls (SQL statement executions and stored
    procedure invocations) attempted during the request, each recorded
    as the exact SQL/procedure-name string together with its parameter
    tuple, exactly as handed to the MySQL driver.

The database itself is external to the repository; its reaction to a
call is part of the `DB` model: a connectivity flag (`get_db_connection`
returns `None` when the TCP/auth handshake fails), an error oracle
`queryFail` (a call either succeeds or raises `mysql.connector.Error`
with some message), row oracles for the join queries whose result shape
no claim depends on, and concrete tables for the queries whose result
contents the claims do depend on (`students`, `admins`, `branches`,
`academic_years`, `semesters`).
-/

namespace FeedbackApp

/-- Scalar values travelling between the request JSON, the handlers and
the driver parameter tuples (`data.get` yields `None` for a missing
key, hence the `none` constructor). -/
inductive Value where
  | none
  | str (s : String)
  | int (n : Int)
  deriving DecidableEq, Repr

/-- Kind of a data-access call: `cursor.execute` or `cursor.callproc`. -/
inductive DBCallKind where
  | execute
  | callproc
  deriving DecidableEq, Repr

/-- One data-access call as received by the MySQL driver: the kind, the
SQL text (or procedure name for `callproc`) and the parameter tuple. -/
structure DBCall where
  kind : DBCallKind
  sql : String
  params : List Value
  deriving DecidableEq, Repr

/-- A result row as returned by a dictionary cursor. -/
def Row := List (String × Value)

instance : DecidableEq Row := by
  unfold Row
  infer_instance

/-- Row of the `students` table; only the columns the handlers read are
kept (`SELECT *` rows are only ever accessed at `password_hash` and
`student_id`, and the lookup filters on `roll_number`). -/
structure StudentRow where
  student_id : Int
  roll_number : String
  password_hash : String
  deriving DecidableEq, Repr

/-- Row of the `admins` table (columns the handlers read). -/
structure AdminRow where
  admin_id : Int
  username : String
  password_hash : String
  deriving DecidableEq, Repr

/-- Row of the `branches` table. -/
structure BranchRow where
  branch_id : Int
  name : String
  deriving DecidableEq, Repr

/-- Row of the `academic_years` table. -/
structure YearRow where
  year_id : Int
  year_label : String
  deriving DecidableEq, Repr

/-- Row of the `semesters` table. -/
structure SemesterRow where
  semester_id : Int
  semester_label : String
  ordinal : Int
  deriving DecidableEq, Repr

/-- Model of the external MySQL database and driver:
`connected` says whether `mysql.connector.connect` succeeds;
`queryFail c = some msg` means call `c` raises an error whose `str` is
`msg`; `rows` is the oracle giving the result set of an uninterpreted
`SELECT` (the two join queries); `storedResults` gives the rows of the
last result set of a stored procedure (`None` when the procedure
produces no result set). -/
structure DB where
  connected : Bool
  students : List StudentRow
  admins : List AdminRow
  branches : List BranchRow
  academic_years : List YearRow
  semesters : List SemesterRow
  queryFail : DBCall → Option String
  rows : DBCall → List Row
  storedResults : DBCall → Option (List Row)

/-- External werkzeug primitives (opaque to this codebase; the handlers
only branch on the Boolean outcome of `check_password_hash`). -/
structure Env where
  generate_password_hash : Value → String
  check_password_hash : String → Value → Bool

/-- Flask session: the dictionary behind the signed cookie, restricted
to the two keys the application ever writes. -/
structure SessionState where
  student_id : Option Int
  admin_id : Option Int
  deriving DecidableEq, Repr

/-- JSON documents, for response bodies. -/
inductive Json where
  | null
  | str (s : String)
  | int (n : Int)
  | obj (fields : List (String × Json))
  | arr (elems : List Json)

/-- Conversion of a scalar value to JSON (what `jsonify` does to a
value inside a row). -/
def Value.toJson : Value → Json
  | .none => .null
  | .str s => .str s
  | .int n => .int n

/-- Conversion of a dictionary-cursor row to a JSON object. -/
def rowToJson (r : Row) : Json :=
  .obj (r.map fun p => (p.1, p.2.toJson))

/-- An HTTP response: JSON body plus status code (Flask defaults the
status of a bare `jsonify(...)` to 200). -/
structure Response where
  body : Json
  status : Nat

/-- Python exceptions the model distinguishes: a driver error carrying
a message, and the `AttributeError` raised by calling a method on
`None` when `get_db_connection` returned `None`. -/
inductive PyExn where
  | dbError (msg : String)
  | noneTypeAttr (attr : String)
  deriving DecidableEq, Repr

/-- Textual message of an exception, as produced by Python `str(e)`. -/
def PyExn.text : PyExn → String
  | .dbError msg => msg
  | .noneTypeAttr attr =>
      "\x27NoneType\x27 object has no attribute \x27" ++ attr ++ "\x27"

/-- Outcome of a handler: a returned HTTP response, or an exception
that escaped the handler (no `try` caught it). -/
inductive Outcome where
  | ok (resp : Response)
  | exn (e : PyExn)

/-- Result of running one handler on one request. -/
structure HResult where
  outcome : Outcome
  session : SessionState
  calls : List DBCall

/-- Resource events of the data-access layer, for the
connection/cursor lifecycle contract of `call_stored_procedure`. -/
inductive Event where
  | open_conn
  | cursor_open
  | proc_call (name : String) (ps : List Value)
  | commit
  | cursor_close
  | conn_close
  deriving DecidableEq, Repr

/-- The body `{"status": st, "message": msg}` used by most handlers. -/
def jsonMsg (st msg : String) : Json :=
  .obj [("status", .str st), ("message", .str msg)]

/-- A parsed request: the JSON body fields and the query-string
arguments. -/
structure Request where
  json : List (String × Value)
  args : List (String × String)

/-- `request.json` then `data.get(k)`: the field value, `None` when the
key is absent. -/
def Request.jget (r : Request) (k : String) : Value :=
  (r.json.lookup k).getD Value.none

/-- `request.args.get(k)`: the query argument as a string, `None` when
absent. -/
def Request.argGet (r : Request) (k : String) : Value :=
  match r.args.lookup k with
  | some s => Value.str s
  | Option.none => Value.none

/-- Python truthiness of the values a handler tests with `if v:`. -/
def Value.truthy : Value → Bool
  | .none => false
  | .str s => !s.isEmpty
  | .int n => n != 0

/-- Python truthiness of `session.get(k)` (missing key gives `None`,
and the integer `0` is also falsy). -/
def idTruthy : Option Int → Bool
  | Option.none => false
  | some n => n != 0

/-- `get_db_connection` (app.py lines 35-51): returns a connection when
the driver connects, and returns `None` (after printing) when
`mysql.connector.connect` raises. -/
def get_db_connection (db : DB) : Option Unit :=
  if db.connected then some () else Option.none

/-- Result of `call_stored_procedure`: the returned rows or the escaped
exception, the resource events, and the data-access calls attempted. -/
structure ProcRun where
  result : Except PyExn (Option (List Row))
  events : List Event
  calls : List DBCall

/-- `call_stored_procedure` (app.py lines 53-65): gets a connection
(when `get_db_connection` gave `None`, `conn.cursor(dictionary=True)`
raises `AttributeError` before any resource exists); opens a cursor;
inside `try` runs `cursor.callproc`, then `conn.commit()`, then
collects the last stored result set; the `finally` block closes the
cursor and the connection on both the success and the raise path. -/
def call_stored_procedure (proc_name : String) (ps : List Value) (db : DB) : ProcRun :=
  match get_db_connection db with
  | Option.none =>
      { result := .error (.noneTypeAttr "cursor"), events := [], calls := [] }
  | some _ =>
      let c : DBCall := ⟨.callproc, proc_name, ps⟩
      match db.queryFail c with
      | some msg =>
          { result := .error (.dbError msg)
            events := [.open_conn, .cursor_open, .proc_call proc_name ps,
                       .cursor_close, .conn_close]
            calls := [c] }
      | Option.none =>
          { result := .ok (db.storedResults c)
            events := [.open_conn, .cursor_open, .proc_call proc_name ps,
                       .commit, .cursor_close, .conn_close]
            calls := [c] }

/-- SQL text of the `INSERT` in `student_register` (app.py lines
87-90), whitespace normalised. -/
def insertStudentSQL : String :=
  "INSERT INTO students (first_name, email, password_hash, roll_number, branch_id, year_id, semester_id) VALUES (%s,%s,%s,%s,%s,%s,%s)"

/-- SQL text of the lookup in `student_login` (app.py line 107). -/
def selectStudentSQL : String :=
  "SELECT * FROM students WHERE roll_number=%s"

/-- SQL text of the join in `student_dashboard` (app.py lines 128-137),
whitespace normalised. -/
def studentDashboardSQL : String :=
  "SELECT ta.assignment_id, s.code AS subject_code, s.name AS subject_name, CONCAT(t.first_name,\x27 \x27,COALESCE(t.last_name,\x27\x27)) AS teacher_name FROM students st JOIN teacher_assignments ta ON ta.branch_id=st.branch_id AND ta.year_id=st.year_id AND ta.semester_id=st.semester_id JOIN subjects s ON s.subject_id=ta.subject_id JOIN teachers t ON t.teacher_id=ta.teacher_id WHERE st.student_id=%s"

/-- SQL text of the lookup in `admin_login` (app.py line 183). -/
def selectAdminSQL : String :=
  "SELECT * FROM admins WHERE username=%s"

/-- SQL text of the join in `admin_dashboard` (app.py lines 202-210),
whitespace normalised. -/
def adminDashboardSQL : String :=
  "SELECT t.teacher_id, CONCAT(t.first_name,\x27 \x27,COALESCE(t.last_name,\x27\x27)) AS teacher_name, s.subject_id, s.name AS subject_name, ts.avg_overall_rating, ts.total_feedbacks FROM teacher_assignments ta JOIN teachers t ON t.teacher_id = ta.teacher_id JOIN subjects s ON s.subject_id = ta.subject_id LEFT JOIN teacher_stats ts ON ts.teacher_id = t.teacher_id WHERE ta.branch_id=%s AND ta.year_id=%s AND ta.semester_id=%s"

/-- SQL text of the branches query in `get_dropdown_data` (line 244). -/
def branchesSQL : String :=
  "SELECT branch_id AS id, name FROM branches ORDER BY name"

/-- SQL text of the years query in `get_dropdown_data` (line 247). -/
def yearsSQL : String :=
  "SELECT year_id AS id, year_label AS label FROM academic_years ORDER BY year_id"

/-- SQL text of the semesters query in `get_dropdown_data` (line 250). -/
def semestersSQL : String :=
  "SELECT semester_id AS id, semester_label AS label FROM semesters ORDER BY ordinal"

/-- `student_register` (app.py lines 72-97): reads the body fields,
hashes the password, gets a connection and a cursor (both outside the
`try`, so a `None` connection raises uncaught), then inside `try`
executes the parameterised `INSERT` and commits; `except Exception`
returns the error payload with `str(e)`. -/
def student_register (env : Env) (s : SessionState) (r : Request) (db : DB) : HResult :=
  let hashed_password := env.generate_password_hash (r.jget "password")
  match get_db_connection db with
  | Option.none =>
      { outcome := .exn (.noneTypeAttr "cursor"), session := s, calls := [] }
  | some _ =>
      let c : DBCall := ⟨.execute, insertStudentSQL,
        [r.jget "name", r.jget "email", .str hashed_password, r.jget "roll_number",
         r.jget "branch_id", r.jget "year_id", r.jget "semester_id"]⟩
      match db.queryFail c with
      | some msg =>
          { outcome := .ok ⟨jsonMsg "error" msg, 200⟩, session := s, calls := [c] }
      | Option.none =>
          { outcome := .ok ⟨jsonMsg "success" "Student registered successfully", 200⟩,
            session := s, calls := [c] }

/-- The MySQL comparison `roll_number = %s` against a bound scalar:
only a string equal to the column value matches (`NULL` matches no
row). -/
def matchesStr (v : Value) (col : String) : Bool :=
  v == Value.str col

/-- `student_login` (app.py lines 100-117): looks the student up by
roll number with `fetchone` (first matching row), with no `try` around
the data access; on a match with a verifying password stores
`student_id` in the session and returns the success payload carrying
the id, otherwise returns the generic invalid-credentials payload with
the default 200 status. -/
def student_login (env : Env) (s : SessionState) (r : Request) (db : DB) : HResult :=
  let roll_number := r.jget "roll_number"
  let password := r.jget "password"
  match get_db_connection db with
  | Option.none =>
      { outcome := .exn (.noneTypeAttr "cursor"), session := s, calls := [] }
  | some _ =>
      let c : DBCall := ⟨.execute, selectStudentSQL, [roll_number]⟩
      match db.queryFail c with
      | some msg =>
          { outcome := .exn (.dbError msg), session := s, calls := [c] }
      | Option.none =>
          match (db.students.filter fun st => matchesStr roll_number st.roll_number).head? with
          | some st =>
              if env.check_password_hash st.password_hash password then
                { outcome := .ok ⟨.obj [("status", .str "success"),
                    ("message", .str "Login successful"),
                    ("student_id", .int st.student_id)], 200⟩,
                  session := { s with student_id := some st.student_id },
                  calls := [c] }
              else
                { outcome := .ok ⟨jsonMsg "error" "Invalid credentials", 200⟩,
                  session := s, calls := [c] }
          | Option.none =>
              { outcome := .ok ⟨jsonMsg "error" "Invalid credentials", 200⟩,
                session := s, calls := [c] }

/-- `student_dashboard` (app.py lines 120-141): `if not student_id:`
returns the 401 payload before any data access; otherwise runs the
join query (no `try`) and returns its rows as a JSON array. -/
def student_dashboard (_env : Env) (s : SessionState) (_r : Request) (db : DB) : HResult :=
  if idTruthy s.student_id then
    match s.student_id with
    | some sid =>
        match get_db_connection db with
        | Option.none =>
            { outcome := .exn (.noneTypeAttr "cursor"), session := s, calls := [] }
        | some _ =>
            let c : DBCall := ⟨.execute, studentDashboardSQL, [.int sid]⟩
            match db.queryFail c with
            | some msg =>
                { outcome := .exn (.dbError msg), session := s, calls := [c] }
            | Option.none =>
                { outcome := .ok ⟨.arr ((db.rows c).map rowToJson), 200⟩,
                  session := s, calls := [c] }
    | Option.none =>
        { outcome := .ok ⟨jsonMsg "error" "Not logged in", 401⟩, session := s, calls := [] }
  else
    { outcome := .ok ⟨jsonMsg "error" "Not logged in", 401⟩, session := s, calls := [] }

/-- `student_feedback` (app.py lines 144-164): `if not student_id:`
returns the 401 payload before any data access; otherwise calls the
`submit_feedback` procedure inside `try`, so any exception raised by
the data-access layer (driver errors and the `AttributeError` from a
`None` connection alike) is caught and reported as the error payload
with `str(e)`. -/
def student_feedback (_env : Env) (s : SessionState) (assignment_id : Int)
    (r : Request) (db : DB) : HResult :=
  if idTruthy s.student_id then
    match s.student_id with
    | some sid =>
        let pr := call_stored_procedure "submit_feedback"
          [.int sid, .int assignment_id, r.jget "rating_knowledge",
           r.jget "rating_communication", r.jget "rating_punctuality",
           r.jget "rating_overall", r.jget "comment"] db
        match pr.result with
        | .error e =>
            { outcome := .ok ⟨jsonMsg "error" e.text, 200⟩, session := s, calls := pr.calls }
        | .ok _ =>
            { outcome := .ok ⟨jsonMsg "success" "Feedback submitted successfully", 200⟩,
              session := s, calls := pr.calls }
    | Option.none =>
        { outcome := .ok ⟨jsonMsg "error" "Not logged in", 401⟩, session := s, calls := [] }
  else
    { outcome := .ok ⟨jsonMsg "error" "Not logged in", 401⟩, session := s, calls := [] }

/-- `home` (app.py lines 172-174): the plain health-check string. -/
def home (_env : Env) (s : SessionState) (_r : Request) (_db : DB) : HResult :=
  { outcome := .ok ⟨.str "Faculty Feedback System Backend is running!", 200⟩,
    session := s, calls := [] }

/-- `admin_login` (app.py lines 176-191): like `student_login` over the
`admins` table keyed by username; on success stores `admin_id` in the
session (the success payload carries no id). -/
def admin_login (env : Env) (s : SessionState) (r : Request) (db : DB) : HResult :=
  let username := r.jget "username"
  let password := r.jget "password"
  match get_db_connection db with
  | Option.none =>
      { outcome := .exn (.noneTypeAttr "cursor"), session := s, calls := [] }
  | some _ =>
      let c : DBCall := ⟨.execute, selectAdminSQL, [username]⟩
      match db.queryFail c with
      | some msg =>
          { outcome := .exn (.dbError msg), session := s, calls := [c] }
      | Option.none =>
          match (db.admins.filter fun ad => matchesStr username ad.username).head? with
          | some ad =>
              if env.check_password_hash ad.password_hash password then
                { outcome := .ok ⟨jsonMsg "success" "Login successful", 200⟩,
                  session := { s with admin_id := some ad.admin_id },
                  calls := [c] }
              else
                { outcome := .ok ⟨jsonMsg "error" "Invalid credentials", 200⟩,
                  session := s, calls := [c] }
          | Option.none =>
              { outcome := .ok ⟨jsonMsg "error" "Invalid credentials", 200⟩,
                session := s, calls := [c] }

/-- `admin_dashboard` (app.py lines 194-214): no session check at all;
runs the teacher/stats join parameterised by the three query arguments
(no `try`) and returns its rows as a JSON array. -/
def admin_dashboard (_env : Env) (s : SessionState) (r : Request) (db : DB) : HResult :=
  let branch_id := r.argGet "branch_id"
  let year_id := r.argGet "year_id"
  let semester_id := r.argGet "semester_id"
  match get_db_connection db with
  | Option.none =>
      { outcome := .exn (.noneTypeAttr "cursor"), session := s, calls := [] }
  | some _ =>
      let c : DBCall := ⟨.execute, adminDashboardSQL, [branch_id, year_id, semester_id]⟩
      match db.queryFail c with
      | some msg =>
          { outcome := .exn (.dbError msg), session := s, calls := [c] }
      | Option.none =>
          { outcome := .ok ⟨.arr ((db.rows c).map rowToJson), 200⟩,
            session := s, calls := [c] }

/-- JSON of the value `call_stored_procedure` returns (`jsonify(None)`
serialises to `null`). -/
def summaryToJson : Option (List Row) → Json
  | Option.none => .null
  | some rs => .arr (rs.map rowToJson)

/-- `admin_teacher_summary` (app.py lines 217-228): no session check;
replaces each falsy query argument by `None`, calls the
`generate_teacher_summary` procedure with no `try` (exceptions escape),
and returns the summary rows. -/
def admin_teacher_summary (_env : Env) (s : SessionState) (teacher_id : Int)
    (r : Request) (db : DB) : HResult :=
  let branch_id := r.argGet "branch_id"
  let year_id := r.argGet "year_id"
  let semester_id := r.argGet "semester_id"
  let pr := call_stored_procedure "generate_teacher_summary"
    [.int teacher_id,
     if branch_id.truthy then branch_id else .none,
     if year_id.truthy then year_id else .none,
     if semester_id.truthy then semester_id else .none] db
  match pr.result with
  | .error e => { outcome := .exn e, session := s, calls := pr.calls }
  | .ok rs => { outcome := .ok ⟨summaryToJson rs, 200⟩, session := s, calls := pr.calls }

/-- The `branches` rows after `ORDER BY name`. -/
def sortedBranches (db : DB) : List BranchRow :=
  db.branches.mergeSort fun a b => decide (a.name ≤ b.name)

/-- The `academic_years` rows after `ORDER BY year_id`. -/
def sortedYears (db : DB) : List YearRow :=
  db.academic_years.mergeSort fun a b => decide (a.year_id ≤ b.year_id)

/-- The `semesters` rows after `ORDER BY ordinal`. -/
def sortedSemesters (db : DB) : List SemesterRow :=
  db.semesters.mergeSort fun a b => decide (a.ordinal ≤ b.ordinal)

/-- Embedding of the branches query of `get_dropdown_data`
(`SELECT branch_id AS id, name FROM branches ORDER BY name`): the
`branches` rows sorted by name, projected to aliased columns. -/
def branchesQuery (db : DB) : List Row :=
  (sortedBranches db).map
    fun b => [("id", Value.int b.branch_id), ("name", Value.str b.name)]

/-- Embedding of the years query of `get_dropdown_data`
(`SELECT year_id AS id, year_label AS label FROM academic_years ORDER
BY year_id`). -/
def yearsQuery (db : DB) : List Row :=
  (sortedYears db).map
    fun y => [("id", Value.int y.year_id), ("label", Value.str y.year_label)]

/-- Embedding of the semesters query of `get_dropdown_data`
(`SELECT semester_id AS id, semester_label AS label FROM semesters
ORDER BY ordinal`). -/
def semestersQuery (db : DB) : List Row :=
  (sortedSemesters db).map
    fun sm => [("id", Value.int sm.semester_id), ("label", Value.str sm.semester_label)]

/-- Response body of a successful `get_dropdown_data` request. -/
def dropdownBody (db : DB) : Json :=
  .obj [("branches", .arr ((branchesQuery db).map rowToJson)),
        ("years", .arr ((yearsQuery db).map rowToJson)),
        ("semesters", .arr ((semestersQuery db).map rowToJson))]

/-- `get_dropdown_data` (app.py lines 235-260): the only handler that
checks `get_db_connection` for `None` (returning a 500 error body);
then runs the three `ORDER BY` queries in sequence (no `try`, so a
driver error escapes after the calls attempted so far) and returns the
three sorted lists. -/
def get_dropdown_data (_env : Env) (s : SessionState) (_r : Request) (db : DB) : HResult :=
  match get_db_connection db with
  | Option.none =>
      { outcome := .ok ⟨.obj [("error", .str "Database connection failed")], 500⟩,
        session := s, calls := [] }
  | some _ =>
      let c1 : DBCall := ⟨.execute, branchesSQL, []⟩
      match db.queryFail c1 with
      | some msg =>
          { outcome := .exn (.dbError msg), session := s, calls := [c1] }
      | Option.none =>
          let c2 : DBCall := ⟨.execute, yearsSQL, []⟩
          match db.queryFail c2 with
          | some msg =>
              { outcome := .exn (.dbError msg), session := s, calls := [c1, c2] }
          | Option.none =>
              let c3 : DBCall := ⟨.execute, semestersSQL, []⟩
              match db.queryFail c3 with
              | some msg =>
                  { outcome := .exn (.dbError msg), session := s, calls := [c1, c2, c3] }
              | Option.none =>
                  { outcome := .ok ⟨dropdownBody db, 200⟩,
                    session := s, calls := [c1, c2, c3] }

/-- The routes of the application; path parameters live in the
constructor. -/
inductive Handler where
  | home
  | student_register
  | student_login
  | student_dashboard
  | student_feedback (assignment_id : Int)
  | admin_login
  | admin_dashboard
  | admin_teacher_summary (teacher_id : Int)
  | get_dropdown_data
  deriving DecidableEq, Repr

/-- Dispatch: run the handler of a route on one request. -/
def runHandler : Handler → Env → SessionState → Request → DB → HResult
  | .home => home
  | .student_register => student_register
  | .student_login => student_login
  | .student_dashboard => student_dashboard
  | .student_feedback aid => fun env s r db => student_feedback env s aid r db
  | .admin_login => admin_login
  | .admin_dashboard => admin_dashboard
  | .admin_teacher_summary tid => fun env s r db => admin_teacher_summary env s tid r db
  | .get_dropdown_data => get_dropdown_data

/-- The fixed SQL texts (or procedure names) a route can ever hand to
the driver; constants, independent of any request data. -/
def handlerSQLs : Handler → List String
  | .home => []
  | .student_register => [insertStudentSQL]
  | .student_login => [selectStudentSQL]
  | .student_dashboard => [studentDashboardSQL]
  | .student_feedback _ => ["submit_feedback"]
  | .admin_login => [selectAdminSQL]
  | .admin_dashboard => [adminDashboardSQL]
  | .admin_teacher_summary _ => ["generate_teacher_summary"]
  | .get_dropdown_data => [branchesSQL, yearsSQL, semestersSQL]

/-- Session states reachable from a fresh (empty) session by any
sequence of requests, with arbitrary request data and database
behaviour at every step. -/
inductive Reachable : SessionState → Prop where
  | init : Reachable ⟨Option.none, Option.none⟩
  | step (h : Handler) (env : Env) (r : Request) (db : DB) {s : SessionState} :
      Reachable s → Reachable (runHandler h env s r db).session

/-! Concrete fixtures for witness and counterexample runs. -/

/-- Fixture environment: hashing prefixes the plaintext, checking
compares accordingly (a concrete instance of the opaque werkzeug
primitives). -/
def witnessEnv : Env :=
  { generate_password_hash := fun v => match v with | .str s => "h:" ++ s | _ => "h:"
    check_password_hash := fun hs v => match v with | .str s => hs == "h:" ++ s | _ => false }

/-- Fixture login request for roll number R100. -/
def witnessReq : Request :=
  { json := [("roll_number", .str "R100"), ("password", .str "pw1")], args := [] }

/-- Second fixture login request, with different field values. -/
def witnessReq2 : Request :=
  { json := [("roll_number", .str "R200"), ("password", .str "pw2")], args := [] }

/-- Fixture admin login request. -/
def witnessAdminReq : Request :=
  { json := [("username", .str "root"), ("password", .str "adminpw")], args := [] }

/-- Fixture admin login request with a wrong password. -/
def witnessWrongAdminReq : Request :=
  { json := [("username", .str "root"), ("password", .str "wrongpw")], args := [] }

/-- Fixture student row. -/
def witnessStudent : StudentRow := ⟨1, "R100", "h:pw1"⟩

/-- Fixture admin row. -/
def witnessAdmin : AdminRow := ⟨7, "root", "h:adminpw"⟩

/-- Fixture database: connected, never failing, with one student, one
admin and unsorted dropdown tables. -/
def witnessDB : DB :=
  { connected := true
    students := [witnessStudent]
    admins := [witnessAdmin]
    branches := [⟨2, "CSE"⟩, ⟨1, "AIML"⟩]
    academic_years := [⟨2, "2024-25"⟩, ⟨1, "2023-24"⟩]
    semesters := [⟨4, "Sem 4", 4⟩, ⟨3, "Sem 3", 3⟩]
    queryFail := fun _ => Option.none
    rows := fun _ => []
    storedResults := fun _ => Option.none }

/-- Fixture database whose connection handshake fails. -/
def witnessDBDown : DB := { witnessDB with connected := false }

/-- Fixture database where every data-access call raises with message
`boom`. -/
def witnessDBFail : DB := { witnessDB with queryFail := fun _ => some "boom" }

/-- Session produced by a successful student login followed by a
successful admin login in the same (initially empty) session, on the
fixture data. -/
def doubleLoginSession : SessionState :=
  (runHandler .admin_login witnessEnv
    (runHandler .student_login witnessEnv ⟨Option.none, Option.none⟩ witnessReq witnessDB).session
    witnessAdminReq witnessDB).session

/-- Bool test of whether an event is a procedure invocation. -/
def Event.isProc : Event → Bool
  | .proc_call _ _ => true
  | _ => false

/-- Number of data-access calls each route performs on its normal path
(authorised session, connected database, no driver failure). -/
def dataAccessCount : Handler → Nat
  | .home => 0
  | .get_dropdown_data => 3
  | _ => 1

/-- Session requirement a route imposes before touching data (the
`if not student_id` guard of the two protected student routes; every
other route performs no session check). -/
def authOK : Handler → SessionState → Bool
  | .student_dashboard, s => idTruthy s.student_id
  | .student_feedback _, s => idTruthy s.student_id
  | _, _ => true

/-! Characterisation of the data-access calls each handler attempts. -/

theorem student_register_calls (env : Env) (s : SessionState) (r : Request) (db : DB) :
    (student_register env s r db).calls
      = if db.connected then
          [⟨.execute, insertStudentSQL,
            [r.jget "name", r.jget "email",
             .str (env.generate_password_hash (r.jget "password")), r.jget "roll_number",
             r.jget "branch_id", r.jget "year_id", r.jget "semester_id"]⟩]
        else [] := by
  by_cases hc : db.connected <;>
    simp only [student_register, get_db_connection, hc, if_true, if_false] <;>
    try rfl
  split <;> rfl

theorem student_login_calls (env : Env) (s : SessionState) (r : Request) (db : DB) :
    (student_login env s r db).calls
      = if db.connected then [⟨.execute, selectStudentSQL, [r.jget "roll_number"]⟩]
        else [] := by
  by_cases hc : db.connected <;>
    simp only [student_login, get_db_connection, hc, if_true, if_false] <;>
    try rfl
  split
  · rfl
  · split
    · split <;> rfl
    · rfl

theorem student_dashboard_calls (env : Env) (s : SessionState) (r : Request) (db : DB) :
    (student_dashboard env s r db).calls
      = if idTruthy s.student_id && db.connected then
          [⟨.execute, studentDashboardSQL, [.int (s.student_id.getD 0)]⟩]
        else [] := by
  cases hs : s.student_id with
  | none => simp [student_dashboard, hs, idTruthy]
  | some sid =>
      by_cases hz : idTruthy (some sid) <;>
        by_cases hc : db.connected <;>
        simp only [student_dashboard, get_db_connection, hs, hz, hc, if_true, if_false,
          Bool.true_and, Bool.false_and, Bool.and_true, Bool.and_false] <;>
        try rfl
      split <;> rfl

theorem student_feedback_calls (env : Env) (s : SessionState) (aid : Int)
    (r : Request) (db : DB) :
    (student_feedback env s aid r db).calls
      = if idTruthy s.student_id && db.connected then
          [⟨.callproc, "submit_feedback",
            [.int (s.student_id.getD 0), .int aid, r.jget "rating_knowledge",
             r.jget "rating_communication", r.jget "rating_punctuality",
             r.jget "rating_overall", r.jget "comment"]⟩]
        else [] := by
  cases hs : s.student_id with
  | none => simp [student_feedback, hs, idTruthy]
  | some sid =>
      by_cases hz : idTruthy (some sid) <;>
        by_cases hc : db.connected <;>
        simp only [student_feedback, call_stored_procedure, get_db_connection, hs, hz, hc,
          if_true, if_false, Bool.true_and, Bool.false_and, Bool.and_true, Bool.and_false] <;>
        try rfl
      cases db.queryFail ⟨.callproc, "submit_feedback",
        [.int sid, .int aid, r.jget "rating_knowledge", r.jget "rating_communication",
         r.jget "rating_punctuality", r.jget "rating_overall", r.jget "comment"]⟩ <;> rfl

theorem admin_login_calls (env : Env) (s : SessionState) (r : Request) (db : DB) :
    (admin_login env s r db).calls
      = if db.connected then [⟨.execute, selectAdminSQL, [r.jget "username"]⟩]
        else [] := by
  by_cases hc : db.connected <;>
    simp only [admin_login, get_db_connection, hc, if_true, if_false] <;>
    try rfl
  split
  · rfl
  · split
    · split <;> rfl
    · rfl

theorem admin_dashboard_calls (env : Env) (s : SessionState) (r : Request) (db : DB) :
    (admin_dashboard env s r db).calls
      = if db.connected then
          [⟨.execute, adminDashboardSQL,
            [r.argGet "branch_id", r.argGet "year_id", r.argGet "semester_id"]⟩]
        else [] := by
  by_cases hc : db.connected <;>
    simp only [admin_dashboard, get_db_connection, hc, if_true, if_false] <;>
    try rfl
  split <;> rfl

theorem admin_teacher_summary_calls (env : Env) (s : SessionState) (tid : Int)
    (r : Request) (db : DB) :
    (admin_teacher_summary env s tid r db).calls
      = if db.connected then
          [⟨.callproc, "generate_teacher_summary",
            [.int tid,
             if (r.argGet "branch_id").truthy then r.argGet "branch_id" else .none,
             if (r.argGet "year_id").truthy then r.argGet "year_id" else .none,
             if (r.argGet "semester_id").truthy then r.argGet "semester_id" else .none]⟩]
        else [] := by
  by_cases hc : db.connected <;>
    simp only [admin_teacher_summary, call_stored_procedure, get_db_connection, hc,
      if_true, if_false] <;>
    try rfl
  cases db.queryFail ⟨.callproc, "generate_teacher_summary",
    [.int tid,
     if (r.argGet "branch_id").truthy then r.argGet "branch_id" else .none,
     if (r.argGet "year_id").truthy then r.argGet "year_id" else .none,
     if (r.argGet "semester_id").truthy then r.argGet "semester_id" else .none]⟩ <;> rfl

theorem get_dropdown_data_calls (env : Env) (s : SessionState) (r : Request) (db : DB) :
    (get_dropdown_data env s r db).calls
      = if db.connected then
          match db.queryFail ⟨.execute, branchesSQL, []⟩ with
          | some _ => [⟨.execute, branchesSQL, []⟩]
          | Option.none =>
              match db.queryFail ⟨.execute, yearsSQL, []⟩ with
              | some _ => [⟨.execute, branchesSQL, []⟩, ⟨.execute, yearsSQL, []⟩]
              | Option.none =>
                  [⟨.execute, branchesSQL, []⟩, ⟨.execute, yearsSQL, []⟩,
                   ⟨.execute, semestersSQL, []⟩]
        else [] := by
  by_cases hc : db.connected <;>
    simp only [get_dropdown_data, get_db_connection, hc, if_true, if_false] <;>
    try rfl
  split
  · rfl
  · split
    · rfl
    · split <;> rfl

/-! Characterisation of the session state each handler leaves behind. -/

theorem student_register_session (env : Env) (s : SessionState) (r : Request) (db : DB) :
    (student_register env s r db).session = s := by
  simp only [student_register, get_db_connection]
  split
  · rfl
  · split <;> rfl

theorem student_login_session (env : Env) (s : SessionState) (r : Request) (db : DB) :
    (student_login env s r db).session = s ∨
    ∃ st : StudentRow,
      (student_login env s r db).session = { s with student_id := some st.student_id } := by
  simp only [student_login, get_db_connection]
  split
  · exact .inl rfl
  · split
    · exact .inl rfl
    · split
      · split
        · rename_i st _ _
          exact .inr ⟨st, rfl⟩
        · exact .inl rfl
      · exact .inl rfl

theorem student_dashboard_session (env : Env) (s : SessionState) (r : Request) (db : DB) :
    (student_dashboard env s r db).session = s := by
  simp only [student_dashboard, get_db_connection]
  split
  · split
    · split
      · rfl
      · split <;> rfl
    · rfl
  · rfl

theorem student_feedback_session (env : Env) (s : SessionState) (aid : Int)
    (r : Request) (db : DB) :
    (student_feedback env s aid r db).session = s := by
  simp only [student_feedback, call_stored_procedure, get_db_connection]
  split
  · split
    · split <;> split <;> rfl
    · rfl
  · rfl

theorem home_session (env : Env) (s : SessionState) (r : Request) (db : DB) :
    (home env s r db).session = s := rfl

theorem admin_login_session (env : Env) (s : SessionState) (r : Request) (db : DB) :
    (admin_login env s r db).session = s ∨
    ∃ ad : AdminRow,
      (admin_login env s r db).session = { s with admin_id := some ad.admin_id } := by
  simp only [admin_login, get_db_connection]
  split
  · exact .inl rfl
  · split
    · exact .inl rfl
    · split
      · split
        · rename_i ad _ _
          exact .inr ⟨ad, rfl⟩
        · exact .inl rfl
      · exact .inl rfl

theorem admin_dashboard_session (env : Env) (s : SessionState) (r : Request) (db : DB) :
    (admin_dashboard env s r db).session = s := by
  simp only [admin_dashboard, get_db_connection]
  split
  · rfl
  · split <;> rfl

theorem admin_teacher_summary_session (env : Env) (s : SessionState) (tid : Int)
    (r : Request) (db : DB) :
    (admin_teacher_summary env s tid r db).session = s := by
  simp only [admin_teacher_summary, call_stored_procedure, get_db_connection]
  split <;> split <;> rfl

theorem get_dropdown_data_session (env : Env) (s : SessionState) (r : Request) (db : DB) :
    (get_dropdown_data env s r db).session = s := by
  simp only [get_dropdown_data, get_db_connection]
  split
  · rfl
  · split
    · rfl
    · split
      · rfl
      · split <;> rfl

/-! Claim theorems. -/

/-- C1: for every endpoint handler and any two request inputs (same
session and database), the sequence of SQL texts (or procedure names)
handed to the driver is the same, and every text handed to the driver
belongs to the fixed per-route list of string constants — request data
reaches the database only through the parameter tuple, never by
interpolation into the SQL text. -/
theorem sql_text_request_independent (h : Handler) (env : Env) (s : SessionState)
    (r1 r2 : Request) (db : DB) :
    (runHandler h env s r1 db).calls.map DBCall.sql
      = (runHandler h env s r2 db).calls.map DBCall.sql ∧
    ∀ c ∈ (runHandler h env s r1 db).calls, c.sql ∈ handlerSQLs h := by
  cases h <;>
    refine ⟨?_, ?_⟩ <;>
      simp only [runHandler, home, handlerSQLs, student_register_calls, student_login_calls,
        student_dashboard_calls, student_feedback_calls, admin_login_calls,
        admin_dashboard_calls, admin_teacher_summary_calls, get_dropdown_data_calls] <;>
      (try split) <;> (try split) <;> (try split) <;> simp

/-- Witness for the membership part of C1 at a concrete run: the login
route with a connected database attempts exactly one call whose text is
the fixed login query. -/
theorem sql_text_request_independent_witness :
    (runHandler .student_login witnessEnv ⟨Option.none, Option.none⟩ witnessReq witnessDB).calls.map
        DBCall.sql
      = (runHandler .student_login witnessEnv ⟨Option.none, Option.none⟩ witnessReq2 witnessDB).calls.map
        DBCall.sql ∧
    ∀ c ∈ (runHandler .student_login witnessEnv ⟨Option.none, Option.none⟩ witnessReq witnessDB).calls,
      c.sql ∈ handlerSQLs .student_login :=
  sql_text_request_independent .student_login witnessEnv ⟨Option.none, Option.none⟩
    witnessReq witnessReq2 witnessDB

/-- C2: a request to a protected endpoint (GET /student/dashboard or
POST /student/feedback/<id>) whose session holds no `student_id`
returns the unauthorized payload with status 401, leaves the session
unchanged, and performs no data-access call at all. -/
theorem protected_endpoints_unauthorized (env : Env) (s : SessionState) (r : Request)
    (db : DB) (aid : Int) (hs : s.student_id = Option.none) :
    runHandler .student_dashboard env s r db
      = ⟨.ok ⟨jsonMsg "error" "Not logged in", 401⟩, s, []⟩ ∧
    runHandler (.student_feedback aid) env s r db
      = ⟨.ok ⟨jsonMsg "error" "Not logged in", 401⟩, s, []⟩ := by
  refine ⟨?_, ?_⟩ <;>
    simp [runHandler, student_dashboard, student_feedback, hs, idTruthy]

/-- Witness for C2: a concrete logged-out session on both protected
endpoints. -/
theorem protected_endpoints_unauthorized_witness :
    runHandler .student_dashboard witnessEnv ⟨Option.none, Option.none⟩ witnessReq witnessDB
      = ⟨.ok ⟨jsonMsg "error" "Not logged in", 401⟩, ⟨Option.none, Option.none⟩, []⟩ ∧
    runHandler (.student_feedback 5) witnessEnv ⟨Option.none, Option.none⟩ witnessReq witnessDB
      = ⟨.ok ⟨jsonMsg "error" "Not logged in", 401⟩, ⟨Option.none, Option.none⟩, []⟩ :=
  protected_endpoints_unauthorized witnessEnv ⟨Option.none, Option.none⟩ witnessReq
    witnessDB 5 rfl

/-- C3: a login request whose identifier matches a stored record
(`fetchone` over the parameterised lookup) and whose password verifies
against that record's stored hash stores exactly that record's id in
the session (`student_id` for the student route, `admin_id` for the
admin route) and returns the success response; the student success
payload carries the same id. -/
theorem login_success_establishes_session (env : Env) (s : SessionState) (r ra : Request)
    (db : DB) (st : StudentRow) (ad : AdminRow)
    (hconn : db.connected = true)
    (hq : db.queryFail ⟨.execute, selectStudentSQL, [r.jget "roll_number"]⟩ = Option.none)
    (hst : (db.students.filter fun x => matchesStr (r.jget "roll_number") x.roll_number).head?
      = some st)
    (hpw : env.check_password_hash st.password_hash (r.jget "password") = true)
    (hqa : db.queryFail ⟨.execute, selectAdminSQL, [ra.jget "username"]⟩ = Option.none)
    (had : (db.admins.filter fun x => matchesStr (ra.jget "username") x.username).head?
      = some ad)
    (hpwa : env.check_password_hash ad.password_hash (ra.jget "password") = true) :
    runHandler .student_login env s r db
      = ⟨.ok ⟨.obj [("status", .str "success"), ("message", .str "Login successful"),
          ("student_id", .int st.student_id)], 200⟩,
         { s with student_id := some st.student_id },
         [⟨.execute, selectStudentSQL, [r.jget "roll_number"]⟩]⟩ ∧
    runHandler .admin_login env s ra db
      = ⟨.ok ⟨jsonMsg "success" "Login successful", 200⟩,
         { s with admin_id := some ad.admin_id },
         [⟨.execute, selectAdminSQL, [ra.jget "username"]⟩]⟩ := by
  refine ⟨?_, ?_⟩ <;>
    simp [runHandler, student_login, admin_login, get_db_connection, hconn, hq, hst, hpw,
      hqa, had, hpwa]

/-- Witness for C3: the fixture student R100 with password pw1 and the
fixture admin root with password adminpw, against the fixture
database. -/
theorem login_success_establishes_session_witness :
    runHandler .student_login witnessEnv ⟨Option.none, Option.none⟩ witnessReq witnessDB
      = ⟨.ok ⟨.obj [("status", .str "success"), ("message", .str "Login successful"),
          ("student_id", .int 1)], 200⟩,
         ⟨some 1, Option.none⟩,
         [⟨.execute, selectStudentSQL, [.str "R100"]⟩]⟩ ∧
    runHandler .admin_login witnessEnv ⟨Option.none, Option.none⟩ witnessAdminReq witnessDB
      = ⟨.ok ⟨jsonMsg "success" "Login successful", 200⟩,
         ⟨Option.none, some 7⟩,
         [⟨.execute, selectAdminSQL, [.str "root"]⟩]⟩ :=
  login_success_establishes_session witnessEnv ⟨Option.none, Option.none⟩ witnessReq
    witnessAdminReq witnessDB witnessStudent witnessAdmin rfl rfl (by decide) (by decide)
    rfl (by decide) (by decide)

/-- C4: a login request with incorrect credentials — the identifier
matches no stored record, or the matched record's hash does not verify
— writes nothing into the session and returns the one generic
invalid-credentials payload with the default 200 status; both failure
causes produce the identical result, so they are indistinguishable in
the response. -/
theorem login_failure_generic (env : Env) (s : SessionState) (r ra : Request)
    (db : DB)
    (hconn : db.connected = true)
    (hq : db.queryFail ⟨.execute, selectStudentSQL, [r.jget "roll_number"]⟩ = Option.none)
    (hst : ∀ st : StudentRow,
      (db.students.filter fun x => matchesStr (r.jget "roll_number") x.roll_number).head?
        = some st →
      env.check_password_hash st.password_hash (r.jget "password") = false)
    (hqa : db.queryFail ⟨.execute, selectAdminSQL, [ra.jget "username"]⟩ = Option.none)
    (had : ∀ ad : AdminRow,
      (db.admins.filter fun x => matchesStr (ra.jget "username") x.username).head?
        = some ad →
      env.check_password_hash ad.password_hash (ra.jget "password") = false) :
    runHandler .student_login env s r db
      = ⟨.ok ⟨jsonMsg "error" "Invalid credentials", 200⟩, s,
         [⟨.execute, selectStudentSQL, [r.jget "roll_number"]⟩]⟩ ∧
    runHandler .admin_login env s ra db
      = ⟨.ok ⟨jsonMsg "error" "Invalid credentials", 200⟩, s,
         [⟨.execute, selectAdminSQL, [ra.jget "username"]⟩]⟩ := by
  constructor
  · simp only [runHandler, student_login, get_db_connection, hconn, if_true, hq]
    cases hh : (db.students.filter fun x =>
        matchesStr (r.jget "roll_number") x.roll_number).head? with
    | none => rfl
    | some st => simp [hst st hh]
  · simp only [runHandler, admin_login, get_db_connection, hconn, if_true, hqa]
    cases hh : (db.admins.filter fun x =>
        matchesStr (ra.jget "username") x.username).head? with
    | none => rfl
    | some ad => simp [had ad hh]

/-- Witness for C4: an unknown roll number on the student route and a
wrong password for the stored admin on the admin route. -/
theorem login_failure_generic_witness :
    runHandler .student_login witnessEnv ⟨Option.none, Option.none⟩ witnessReq2 witnessDB
      = ⟨.ok ⟨jsonMsg "error" "Invalid credentials", 200⟩, ⟨Option.none, Option.none⟩,
         [⟨.execute, selectStudentSQL, [.str "R200"]⟩]⟩ ∧
    runHandler .admin_login witnessEnv ⟨Option.none, Option.none⟩ witnessWrongAdminReq witnessDB
      = ⟨.ok ⟨jsonMsg "error" "Invalid credentials", 200⟩, ⟨Option.none, Option.none⟩,
         [⟨.execute, selectAdminSQL, [.str "root"]⟩]⟩ :=
  login_failure_generic witnessEnv ⟨Option.none, Option.none⟩ witnessReq2
    witnessWrongAdminReq witnessDB rfl rfl
    (fun st h => by simp [witnessDB, witnessStudent, witnessReq2, Request.jget, matchesStr] at h)
    rfl
    (fun ad h => by
      have : ad = witnessAdmin := by
        simpa [witnessDB, witnessAdmin, witnessWrongAdminReq, Request.jget, matchesStr] using h.symm
      subst this
      decide)

/-- C5 counterexample: the session reached by a student login followed
by an admin login holds BOTH identity keys at once — `student_login`
sets `student_id` and `admin_login` sets `admin_id`, and neither
handler ever clears the other key, so the at-most-one-identity
invariant fails on a reachable state. -/
theorem session_holds_both_identities :
    Reachable doubleLoginSession ∧
    doubleLoginSession.student_id = some 1 ∧
    doubleLoginSession.admin_id = some 7 :=
  ⟨Reachable.step .admin_login witnessEnv witnessAdminReq witnessDB
    (Reachable.step .student_login witnessEnv witnessReq witnessDB Reachable.init),
   by decide, by decide⟩

/-- C5 amended: over every request, each handler leaves `student_id`
unchanged unless it is the student-login route, and leaves `admin_id`
unchanged unless it is the admin-login route; an identity key, once
present, is never removed. Consequently both identities can be (and
are, see the counterexample) present simultaneously after the two
logins. -/
theorem session_identities_persist (h : Handler) (env : Env) (s : SessionState)
    (r : Request) (db : DB) :
    ((runHandler h env s r db).session.student_id = s.student_id ∨ h = .student_login) ∧
    ((runHandler h env s r db).session.admin_id = s.admin_id ∨ h = .admin_login) ∧
    (s.student_id.isSome = true → (runHandler h env s r db).session.student_id.isSome = true) ∧
    (s.admin_id.isSome = true → (runHandler h env s r db).session.admin_id.isSome = true) := by
  cases h with
  | home =>
      simp [runHandler, home_session]
  | student_register =>
      simp [runHandler, student_register_session]
  | student_login =>
      rcases student_login_session env s r db with hs | ⟨st, hs⟩ <;>
        simp [runHandler, hs]
  | student_dashboard =>
      simp [runHandler, student_dashboard_session]
  | student_feedback aid =>
      simp [runHandler, student_feedback_session]
  | admin_login =>
      rcases admin_login_session env s r db with hs | ⟨ad, hs⟩ <;>
        simp [runHandler, hs]
  | admin_dashboard =>
      simp [runHandler, admin_dashboard_session]
  | admin_teacher_summary tid =>
      simp [runHandler, admin_teacher_summary_session]
  | get_dropdown_data =>
      simp [runHandler, get_dropdown_data_session]

/-- Witness for C5 amended: a concrete request (the health endpoint)
from a session holding both identities keeps both identities present. -/
theorem session_identities_persist_witness :
    (runHandler .home witnessEnv ⟨some 1, some 7⟩ witnessReq witnessDB).session.student_id.isSome
      = true ∧
    (runHandler .home witnessEnv ⟨some 1, some 7⟩ witnessReq witnessDB).session.admin_id.isSome
      = true :=
  ⟨(session_identities_persist .home witnessEnv ⟨some 1, some 7⟩ witnessReq witnessDB).2.2.1
     (by decide),
   (session_identities_persist .home witnessEnv ⟨some 1, some 7⟩ witnessReq witnessDB).2.2.2
     (by decide)⟩

/-- C6 counterexample: when the data-access step of `student_login`
raises (every call fails with message `boom` in `witnessDBFail`), the
handler does not return an error payload — the exception escapes the
handler unhandled, because the login data access sits in no `try`
block. -/
theorem db_error_escapes_student_login :
    (runHandler .student_login witnessEnv ⟨Option.none, Option.none⟩ witnessReq
        witnessDBFail).outcome
      = .exn (.dbError "boom") := rfl

/-- C6 amended: only `student_register` and `student_feedback` wrap
their data access in `try`/`except` and return the generic error
payload embedding `str(e)`; every other data-accessing handler
(`student_login`, `student_dashboard`, `admin_login`,
`admin_dashboard`, `admin_teacher_summary`, `get_dropdown_data`)
propagates the data-layer exception unhandled. -/
theorem data_layer_error_handling (env : Env) (s : SessionState) (r : Request) (db : DB)
    (aid tid : Int) (msg : String)
    (hconn : db.connected = true)
    (hfail : ∀ c, db.queryFail c = some msg)
    (hsid : idTruthy s.student_id = true) :
    (runHandler .student_register env s r db).outcome = .ok ⟨jsonMsg "error" msg, 200⟩ ∧
    (runHandler (.student_feedback aid) env s r db).outcome = .ok ⟨jsonMsg "error" msg, 200⟩ ∧
    (runHandler .student_login env s r db).outcome = .exn (.dbError msg) ∧
    (runHandler .student_dashboard env s r db).outcome = .exn (.dbError msg) ∧
    (runHandler .admin_login env s r db).outcome = .exn (.dbError msg) ∧
    (runHandler .admin_dashboard env s r db).outcome = .exn (.dbError msg) ∧
    (runHandler (.admin_teacher_summary tid) env s r db).outcome = .exn (.dbError msg) ∧
    (runHandler .get_dropdown_data env s r db).outcome = .exn (.dbError msg) := by
  obtain ⟨sid, hs⟩ : ∃ sid, s.student_id = some sid := by
    cases hv : s.student_id with
    | none => rw [hv] at hsid; simp [idTruthy] at hsid
    | some sid => exact ⟨sid, rfl⟩
  rw [hs] at hsid
  refine ⟨?_, ?_, ?_, ?_, ?_, ?_, ?_, ?_⟩ <;>
    simp [runHandler, student_register, student_feedback, student_login, student_dashboard,
      admin_login, admin_dashboard, admin_teacher_summary, get_dropdown_data,
      call_stored_procedure, get_db_connection, hconn, hfail, hs, hsid, PyExn.text]

/-- Witness for C6 amended: the fixture database failing every call
with message `boom`, a logged-in session, concrete path parameters. -/
theorem data_layer_error_handling_witness :
    (runHandler .student_register witnessEnv ⟨some 1, Option.none⟩ witnessReq
        witnessDBFail).outcome
      = .ok ⟨jsonMsg "error" "boom", 200⟩ ∧
    (runHandler (.student_feedback 5) witnessEnv ⟨some 1, Option.none⟩ witnessReq
        witnessDBFail).outcome
      = .ok ⟨jsonMsg "error" "boom", 200⟩ ∧
    (runHandler .student_login witnessEnv ⟨some 1, Option.none⟩ witnessReq
        witnessDBFail).outcome
      = .exn (.dbError "boom") ∧
    (runHandler .student_dashboard witnessEnv ⟨some 1, Option.none⟩ witnessReq
        witnessDBFail).outcome
      = .exn (.dbError "boom") ∧
    (runHandler .admin_login witnessEnv ⟨some 1, Option.none⟩ witnessReq
        witnessDBFail).outcome
      = .exn (.dbError "boom") ∧
    (runHandler .admin_dashboard witnessEnv ⟨some 1, Option.none⟩ witnessReq
        witnessDBFail).outcome
      = .exn (.dbError "boom") ∧
    (runHandler (.admin_teacher_summary 3) witnessEnv ⟨some 1, Option.none⟩ witnessReq
        witnessDBFail).outcome
      = .exn (.dbError "boom") ∧
    (runHandler .get_dropdown_data witnessEnv ⟨some 1, Option.none⟩ witnessReq
        witnessDBFail).outcome
      = .exn (.dbError "boom") :=
  data_layer_error_handling witnessEnv ⟨some 1, Option.none⟩ witnessReq witnessDBFail
    5 3 "boom" rfl (fun _ => rfl) (by decide)

/-- C7: whenever `call_stored_procedure` runs against an established
connection — whether the procedure call succeeds or raises — it opens
exactly one connection, issues exactly one procedure invocation (the
named procedure with exactly the given parameters), commits on the
success path, and closes the cursor and then the connection as the
final two events on every path, before the result is returned or the
exception re-raised. -/
theorem call_stored_procedure_lifecycle (n : String) (ps : List Value) (db : DB)
    (hconn : db.connected = true) :
    (call_stored_procedure n ps db).events.count .open_conn = 1 ∧
    ((call_stored_procedure n ps db).events.filter Event.isProc)
      = [.proc_call n ps] ∧
    (call_stored_procedure n ps db).calls = [⟨.callproc, n, ps⟩] ∧
    (∃ pre, (call_stored_procedure n ps db).events
      = pre ++ [Event.cursor_close, Event.conn_close]) ∧
    (∀ rs, (call_stored_procedure n ps db).result = .ok rs →
      (call_stored_procedure n ps db).events.count .commit = 1) ∧
    (∀ e, (call_stored_procedure n ps db).result = .error e →
      (call_stored_procedure n ps db).events.count .commit = 0) := by
  simp only [call_stored_procedure, get_db_connection, hconn, if_true]
  cases db.queryFail ⟨.callproc, n, ps⟩ with
  | none =>
      refine ⟨?_, ?_, ?_, ?_, ?_, ?_⟩
      · simp [List.count_cons]
      · simp [Event.isProc]
      · rfl
      · exact ⟨[.open_conn, .cursor_open, .proc_call n ps, .commit], rfl⟩
      · intro rs _
        simp [List.count_cons]
      · intro e he
        simp at he
  | some msg =>
      refine ⟨?_, ?_, ?_, ?_, ?_, ?_⟩
      · simp [List.count_cons]
      · simp [Event.isProc]
      · rfl
      · exact ⟨[.open_conn, .cursor_open, .proc_call n ps], rfl⟩
      · intro rs hrs
        simp at hrs
      · intro e _
        simp [List.count_cons]

/-- Witness for C7: the `submit_feedback` procedure with an empty
parameter tuple on the connected fixture database. -/
theorem call_stored_procedure_lifecycle_witness :
    (call_stored_procedure "submit_feedback" [] witnessDB).events.count .open_conn = 1 ∧
    ((call_stored_procedure "submit_feedback" [] witnessDB).events.filter Event.isProc)
      = [.proc_call "submit_feedback" []] ∧
    (call_stored_procedure "submit_feedback" [] witnessDB).calls
      = [⟨.callproc, "submit_feedback", []⟩] ∧
    (∃ pre, (call_stored_procedure "submit_feedback" [] witnessDB).events
      = pre ++ [Event.cursor_close, Event.conn_close]) ∧
    (∀ rs, (call_stored_procedure "submit_feedback" [] witnessDB).result = .ok rs →
      (call_stored_procedure "submit_feedback" [] witnessDB).events.count .commit = 1) ∧
    (∀ e, (call_stored_procedure "submit_feedback" [] witnessDB).result = .error e →
      (call_stored_procedure "submit_feedback" [] witnessDB).events.count .commit = 0) :=
  call_stored_procedure_lifecycle "submit_feedback" [] witnessDB rfl

/-- C8 counterexample: a normal request to GET /api/dropdowns issues
three data-access calls, not one — the claim that every endpoint
handler issues exactly one data-access call per request fails here. -/
theorem dropdowns_issue_three_calls :
    (runHandler .get_dropdown_data witnessEnv ⟨Option.none, Option.none⟩ witnessReq
        witnessDB).calls.length = 3 ∧
    (runHandler .get_dropdown_data witnessEnv ⟨Option.none, Option.none⟩ witnessReq
        witnessDB).calls.length ≠ 1 := by
  decide

/-- C8 amended: on the normal path (connected database, no driver
failure, session satisfying the route's auth requirement), every
catalogued endpoint handler issues exactly one data-access call per
request, except GET /api/dropdowns, which issues exactly three (and the
root health endpoint, which issues none). -/
theorem data_access_call_count (h : Handler) (env : Env) (s : SessionState)
    (r : Request) (db : DB)
    (hconn : db.connected = true)
    (hok : ∀ c, db.queryFail c = Option.none)
    (hauth : authOK h s = true) :
    (runHandler h env s r db).calls.length = dataAccessCount h := by
  cases h <;>
    simp_all [runHandler, authOK, dataAccessCount, student_register_calls,
      student_login_calls, student_dashboard_calls, student_feedback_calls,
      admin_login_calls, admin_dashboard_calls, admin_teacher_summary_calls,
      get_dropdown_data_calls, home]

/-- Witness for C8 amended: the student login route on the fixture
database issues exactly one call. -/
theorem data_access_call_count_witness :
    (runHandler .student_login witnessEnv ⟨Option.none, Option.none⟩ witnessReq
        witnessDB).calls.length = dataAccessCount .student_login :=
  data_access_call_count .student_login witnessEnv ⟨Option.none, Option.none⟩ witnessReq
    witnessDB rfl (fun _ => rfl) rfl

/-- C9: for every database state (any insertion order of the rows),
a normal GET /api/dropdowns request returns the body built from the
three `ORDER BY` queries, and those row lists are exactly the stored
rows reordered: branches sorted by name, academic years sorted by year
id, semesters sorted by ordinal. -/
theorem dropdowns_sorted (env : Env) (s : SessionState) (r : Request) (db : DB)
    (hconn : db.connected = true)
    (hok : ∀ c, db.queryFail c = Option.none) :
    (runHandler .get_dropdown_data env s r db).outcome = .ok ⟨dropdownBody db, 200⟩ ∧
    (sortedBranches db).Pairwise (fun a b => a.name ≤ b.name) ∧
    (sortedBranches db).Perm db.branches ∧
    (sortedYears db).Pairwise (fun a b => a.year_id ≤ b.year_id) ∧
    (sortedYears db).Perm db.academic_years ∧
    (sortedSemesters db).Pairwise (fun a b => a.ordinal ≤ b.ordinal) ∧
    (sortedSemesters db).Perm db.semesters := by
  refine ⟨?_, ?_, ?_, ?_, ?_, ?_, ?_⟩
  · simp [runHandler, get_dropdown_data, get_db_connection, hconn, hok]
  · exact List.Pairwise.imp (fun hab => by simpa using hab)
      (List.sorted_mergeSort
        (fun a b c hab hbc => by
          simp only [decide_eq_true_eq] at *
          exact le_trans hab hbc)
        (fun a b => by simpa using le_total a.name b.name) db.branches)
  · exact List.mergeSort_perm db.branches _
  · exact List.Pairwise.imp (fun hab => by simpa using hab)
      (List.sorted_mergeSort
        (fun a b c hab hbc => by
          simp only [decide_eq_true_eq] at *
          exact le_trans hab hbc)
        (fun a b => by simpa using le_total a.year_id b.year_id) db.academic_years)
  · exact List.mergeSort_perm db.academic_years _
  · exact List.Pairwise.imp (fun hab => by simpa using hab)
      (List.sorted_mergeSort
        (fun a b c hab hbc => by
          simp only [decide_eq_true_eq] at *
          exact le_trans hab hbc)
        (fun a b => by simpa using le_total a.ordinal b.ordinal) db.semesters)
  · exact List.mergeSort_perm db.semesters _

/-- Witness for C9: the fixture database stores the dropdown rows in
reverse order, and the normal dropdown response is built from the three
sorted lists. -/
theorem dropdowns_sorted_witness :
    (runHandler .get_dropdown_data witnessEnv ⟨Option.none, Option.none⟩ witnessReq
        witnessDB).outcome = .ok ⟨dropdownBody witnessDB, 200⟩ ∧
    (sortedBranches witnessDB).Pairwise (fun a b => a.name ≤ b.name) ∧
    (sortedBranches witnessDB).Perm witnessDB.branches ∧
    (sortedYears witnessDB).Pairwise (fun a b => a.year_id ≤ b.year_id) ∧
    (sortedYears witnessDB).Perm witnessDB.academic_years ∧
    (sortedSemesters witnessDB).Pairwise (fun a b => a.ordinal ≤ b.ordinal) ∧
    (sortedSemesters witnessDB).Perm witnessDB.semesters :=
  dropdowns_sorted witnessEnv ⟨Option.none, Option.none⟩ witnessReq witnessDB rfl
    (fun _ => rfl)

/-- C10 counterexample: with a failed connection and a logged-in
session, POST /student/feedback/5 does call a method on the `None`
connection (inside `call_stored_procedure`), but its `except Exception`
catches the resulting `AttributeError` and returns a 200 error payload
— it does not raise an unhandled exception, so the claim's "every other
handler raises" is false. -/
theorem feedback_catches_none_connection :
    (runHandler (.student_feedback 5) witnessEnv ⟨some 1, Option.none⟩ witnessReq
        witnessDBDown).outcome
      = .ok ⟨jsonMsg "error" (PyExn.noneTypeAttr "cursor").text, 200⟩ := rfl

/-- C10 amended: when the database connection cannot be established,
`get_db_connection` returns `None` rather than raising; GET
/api/dropdowns checks for it and returns the 500 error response;
POST /student/feedback (with a student session) catches the resulting
`AttributeError` in its generic `except` and returns a 200 error
payload embedding the exception text; every other data-accessing
handler calls a method on `None` and raises the `AttributeError`
unhandled. -/
theorem none_connection_behaviour (env : Env) (s : SessionState) (r : Request)
    (db : DB) (aid tid : Int)
    (hdown : db.connected = false)
    (hsid : idTruthy s.student_id = true) :
    get_db_connection db = Option.none ∧
    runHandler .get_dropdown_data env s r db
      = ⟨.ok ⟨.obj [("error", .str "Database connection failed")], 500⟩, s, []⟩ ∧
    (runHandler (.student_feedback aid) env s r db).outcome
      = .ok ⟨jsonMsg "error" (PyExn.noneTypeAttr "cursor").text, 200⟩ ∧
    (runHandler .student_register env s r db).outcome = .exn (.noneTypeAttr "cursor") ∧
    (runHandler .student_login env s r db).outcome = .exn (.noneTypeAttr "cursor") ∧
    (runHandler .student_dashboard env s r db).outcome = .exn (.noneTypeAttr "cursor") ∧
    (runHandler .admin_login env s r db).outcome = .exn (.noneTypeAttr "cursor") ∧
    (runHandler .admin_dashboard env s r db).outcome = .exn (.noneTypeAttr "cursor") ∧
    (runHandler (.admin_teacher_summary tid) env s r db).outcome
      = .exn (.noneTypeAttr "cursor") := by
  obtain ⟨sid, hs⟩ : ∃ sid, s.student_id = some sid := by
    cases hv : s.student_id with
    | none => rw [hv] at hsid; simp [idTruthy] at hsid
    | some sid => exact ⟨sid, rfl⟩
  rw [hs] at hsid
  refine ⟨?_, ?_, ?_, ?_, ?_, ?_, ?_, ?_, ?_⟩ <;>
    simp [runHandler, get_dropdown_data, student_feedback, student_register, student_login,
      student_dashboard, admin_login, admin_dashboard, admin_teacher_summary,
      call_stored_procedure, get_db_connection, hdown, hs, hsid]

/-- Witness for C10 amended: the disconnected fixture database with a
logged-in student session and concrete path parameters. -/
theorem none_connection_behaviour_witness :
    get_db_connection witnessDBDown = Option.none ∧
    runHandler .get_dropdown_data witnessEnv ⟨some 1, Option.none⟩ witnessReq witnessDBDown
      = ⟨.ok ⟨.obj [("error", .str "Database connection failed")], 500⟩,
         ⟨some 1, Option.none⟩, []⟩ ∧
    (runHandler (.student_feedback 5) witnessEnv ⟨some 1, Option.none⟩ witnessReq
        witnessDBDown).outcome
      = .ok ⟨jsonMsg "error" (PyExn.noneTypeAttr "cursor").text, 200⟩ ∧
    (runHandler .student_register witnessEnv ⟨some 1, Option.none⟩ witnessReq
        witnessDBDown).outcome = .exn (.noneTypeAttr "cursor") ∧
    (runHandler .student_login witnessEnv ⟨some 1, Option.none⟩ witnessReq
        witnessDBDown).outcome = .exn (.noneTypeAttr "cursor") ∧
    (runHandler .student_dashboard witnessEnv ⟨some 1, Option.none⟩ witnessReq
        witnessDBDown).outcome = .exn (.noneTypeAttr "cursor") ∧
    (runHandler .admin_login witnessEnv ⟨some 1, Option.none⟩ witnessReq
        witnessDBDown).outcome = .exn (.noneTypeAttr "cursor") ∧
    (runHandler .admin_dashboard witnessEnv ⟨some 1, Option.none⟩ witnessReq
        witnessDBDown).outcome = .exn (.noneTypeAttr "cursor") ∧
    (runHandler (.admin_teacher_summary 3) witnessEnv ⟨some 1, Option.none⟩ witnessReq
        witnessDBDown).outcome = .exn (.noneTypeAttr "cursor") :=
  none_connection_behaviour witnessEnv ⟨some 1, Option.none⟩ witnessReq witnessDBDown
    5 3 rfl (by decide)

end FeedbackApp
